import Mathlib

/-!
Verification of the backend CRUD API server (src/backend/server.js).

The server is a thin Express layer over a single MySQL table `users`.
Each HTTP handler validates its input, issues at most one parameterized
SQL statement, and maps the driver outcome to a JSON response.  We embed
each handler as a pure function from its inputs to a `HandlerAction`:
either an immediate response (no SQL issued) or a parameterized SQL
statement together with a continuation mapping the driver outcome to the
response.  The external MySQL engine is modelled separately (`mysqlExec`)
so that end-to-end scenarios over the persisted table can be evaluated.
-/

namespace Server

/-- A persisted row of the `users` table: auto-assigned integer id plus
two required text columns (schema from createTableIfNotExists). -/
structure User where
  id : Nat
  name : String
  email : String
deriving Repr, DecidableEq

/-- State of the external storage engine: the rows of the `users` table in
natural (insertion) order, and the next AUTO_INCREMENT value. -/
structure DBState where
  rows : List User
  nextId : Nat
deriving Repr, DecidableEq

/-- Result object the mysql2 driver passes to a query callback on success:
`insertId` and `affectedRows` for writes, the row array for reads. -/
structure QueryResult where
  insertId : Nat
  affectedRows : Nat
  rows : List User
deriving Repr, DecidableEq

/-- Outcome of `db.query`: either a driver error with a message, or a
success result. -/
inductive QueryOutcome where
  | qerr (message : String)
  | qok (result : QueryResult)
deriving Repr, DecidableEq

/-- A parameterized SQL statement as handed to `db.query`: the fixed
statement text and the positionally bound parameter values. -/
structure SqlStatement where
  text : String
  params : List String
deriving Repr, DecidableEq

/-- Body of a JSON HTTP response produced by the server. -/
inductive RespBody where
  | messageOnly (message : String)
  | messageWithId (message : String) (userId : Nat)
  | errorMsg (error : String)
  | usersArr (rows : List User)
  | statusMsg (status : String)
deriving Repr, DecidableEq

/-- An HTTP response: status code and JSON body. -/
structure Response where
  status : Nat
  body : RespBody
deriving Repr, DecidableEq

/-- What a handler does with a request: answer immediately without
touching the database, or issue one parameterized SQL statement and map
the driver outcome to a response via the callback `k`. -/
inductive HandlerAction where
  | respond (r : Response)
  | query (stmt : SqlStatement) (k : QueryOutcome → Response)

/-- The response a `HandlerAction` produces when the database layer
returns outcome `o` (ignored if the handler answered immediately). -/
def actionResponse (a : HandlerAction) (o : QueryOutcome) : Response :=
  match a with
  | .respond r => r
  | .query _ k => k o

/-- The SQL statement a `HandlerAction` sends to the storage engine, if
any. -/
def issuedSql (a : HandlerAction) : Option SqlStatement :=
  match a with
  | .respond _ => none
  | .query stmt _ => some stmt

/-- A field destructured from `req.body`: absent, or a string value.
JS `!x` is true for `undefined` and for the empty string. -/
def falsy : Option String → Bool
  | none => true
  | some s => s = ""

/-- Value of a present body field (the validated branches only read
present, non-empty fields). -/
def getStr : Option String → String
  | none => ""
  | some s => s

/-- A request body for add-user and update-user: the `name` and `email`
fields destructured from the parsed JSON. -/
structure ReqBody where
  name : Option String
  email : Option String
deriving Repr, DecidableEq

/-- SQL text of the insert in the POST /add-user handler. -/
def addUserSql : String := "INSERT INTO users (name, email) VALUES (?, ?)"

/-- SQL text of the select in the GET /users handler. -/
def selectUsersSql : String := "SELECT * FROM users"

/-- SQL text of the update in the PUT /update-user/:id handler. -/
def updateUserSql : String := "UPDATE users SET name = ?, email = ? WHERE id = ?"

/-- SQL text of the delete in the DELETE /delete-user/:id handler. -/
def deleteUserSql : String := "DELETE FROM users WHERE id = ?"

/-- SQL text of the create-table statement (POST /create-table and the
startup createTableIfNotExists). -/
def createTableSql : String :=
  "CREATE TABLE IF NOT EXISTS users (id INT AUTO_INCREMENT PRIMARY KEY, name VARCHAR(100) NOT NULL, email VARCHAR(100) NOT NULL)"

/-- POST /add-user handler (server.js lines 110-123): reject a missing or
empty `name` or `email` with 400 before any SQL; otherwise insert with
positional parameters and answer 200 with the generated insert id, or 500
with the raw driver message. -/
def addUser (body : ReqBody) : HandlerAction :=
  if falsy body.name || falsy body.email then
    .respond ⟨400, .errorMsg "Name and email are required"⟩
  else
    .query ⟨addUserSql, [getStr body.name, getStr body.email]⟩ fun o =>
      match o with
      | .qerr m => ⟨500, .errorMsg m⟩
      | .qok r => ⟨200, .messageWithId "User added successfully!" r.insertId⟩

/-- GET /users handler (server.js lines 129-135): select all rows and
return them, or 500 with the raw driver message. -/
def getUsers : HandlerAction :=
  .query ⟨selectUsersSql, []⟩ fun o =>
    match o with
    | .qerr m => ⟨500, .errorMsg m⟩
    | .qok r => ⟨200, .usersArr r.rows⟩

/-- PUT /update-user/:id handler (server.js lines 142-156): reject a
missing or empty `name` or `email` with 400 before any SQL; otherwise
update binding the raw path id string as the third parameter; a zero
affected-row count maps to 404, otherwise 200. -/
def updateUser (id : String) (body : ReqBody) : HandlerAction :=
  if falsy body.name || falsy body.email then
    .respond ⟨400, .errorMsg "Name and email are required"⟩
  else
    .query ⟨updateUserSql, [getStr body.name, getStr body.email, id]⟩ fun o =>
      match o with
      | .qerr m => ⟨500, .errorMsg m⟩
      | .qok r =>
          if r.affectedRows = 0 then ⟨404, .errorMsg "User not found"⟩
          else ⟨200, .messageOnly "User updated successfully!"⟩

/-- DELETE /delete-user/:id handler (server.js lines 162-172): no
validation of the path id; delete binding the raw id string; a zero
affected-row count maps to 404, otherwise 200. -/
def deleteUser (id : String) : HandlerAction :=
  .query ⟨deleteUserSql, [id]⟩ fun o =>
    match o with
    | .qerr m => ⟨500, .errorMsg m⟩
    | .qok r =>
        if r.affectedRows = 0 then ⟨404, .errorMsg "User not found"⟩
        else ⟨200, .messageOnly "User deleted successfully!"⟩

/-- POST /create-table handler (server.js lines 91-103): issue the fixed
create-if-absent statement with no parameters. -/
def createTable : HandlerAction :=
  .query ⟨createTableSql, []⟩ fun o =>
    match o with
    | .qerr m => ⟨500, .errorMsg m⟩
    | .qok _ => ⟨200, .messageOnly "Users table created successfully!"⟩

/-- Connection-lifecycle states of the shared db handle (implicit in
server.js: the handle is created at startup and reconnects on loss). -/
inductive ConnState where
  | notStarted
  | connecting
  | ready
  | lost
deriving Repr, DecidableEq

/-- GET /health handler (server.js lines 83-85): answers 200 with a fixed
status string; the closure never references the db handle, so the
connection state is ignored. -/
def healthHandler (_s : ConnState) : HandlerAction :=
  .respond ⟨200, .statusMsg "Backend is running!"⟩

/-!
Model of the external MySQL storage engine (the database container is an
external collaborator, not code of this repository).  MySQL compares the
INT column `id` against a bound string parameter by numeric coercion; a
non-numeric string coerces to a value matching no auto-assigned id.  The
reported affected-row count for UPDATE/DELETE is the number of matched
rows (the reference behavior the spec describes: any match yields
affected rows at least 1).
-/

/-- Numeric value of a decimal digit character, if it is one. -/
def charDigit (c : Char) : Option Nat :=
  if 48 ≤ c.toNat ∧ c.toNat ≤ 57 then some (c.toNat - 48) else none

/-- Accumulate the decimal value of a digit sequence; fails on the first
non-digit character. -/
def parseNatAux : List Char → Nat → Option Nat
  | [], acc => some acc
  | c :: cs, acc =>
      match charDigit c with
      | some d => parseNatAux cs (acc * 10 + d)
      | none => none

/-- Decimal interpretation of a bound id parameter string: the value of a
non-empty all-digit string, none otherwise. -/
def parseId (s : String) : Option Nat :=
  match s.data with
  | [] => none
  | cs => parseNatAux cs 0

/-- Whether a table row matches a bound id parameter string: the string
coerces to the integer id of the row.  A non-numeric string matches no
row (auto-assigned ids start at 1). -/
def matchesId (idStr : String) (u : User) : Bool :=
  parseId idStr = some u.id

/-- Engine semantics of the insert statement: append a row with the next
AUTO_INCREMENT id and report it as insertId. -/
def applyInsert (s : DBState) (nm em : String) : DBState × QueryResult :=
  (⟨s.rows ++ [⟨s.nextId, nm, em⟩], s.nextId + 1⟩, ⟨s.nextId, 1, []⟩)

/-- Engine semantics of the update statement: rewrite name and email of
every row matching the bound id; affectedRows is the number of matched
rows. -/
def applyUpdate (s : DBState) (nm em idStr : String) : DBState × QueryResult :=
  (⟨s.rows.map fun u => if matchesId idStr u then ⟨u.id, nm, em⟩ else u, s.nextId⟩,
   ⟨0, (s.rows.filter (matchesId idStr)).length, []⟩)

/-- Engine semantics of the delete statement: drop every row matching the
bound id; affectedRows is the number of matched rows. -/
def applyDelete (s : DBState) (idStr : String) : DBState × QueryResult :=
  (⟨s.rows.filter (fun u => !matchesId idStr u), s.nextId⟩,
   ⟨0, (s.rows.filter (matchesId idStr)).length, []⟩)

/-- Execute one parameterized statement against the modelled engine,
dispatching on the fixed statement texts the server uses.  The
create-table statement is idempotent and leaves the table unchanged. -/
def mysqlExec (s : DBState) (stmt : SqlStatement) : DBState × QueryResult :=
  if stmt.text = addUserSql then
    match stmt.params with
    | [nm, em] => applyInsert s nm em
    | _ => (s, ⟨0, 0, []⟩)
  else if stmt.text = selectUsersSql then
    (s, ⟨0, 0, s.rows⟩)
  else if stmt.text = updateUserSql then
    match stmt.params with
    | [nm, em, idStr] => applyUpdate s nm em idStr
    | _ => (s, ⟨0, 0, []⟩)
  else if stmt.text = deleteUserSql then
    match stmt.params with
    | [idStr] => applyDelete s idStr
    | _ => (s, ⟨0, 0, []⟩)
  else
    (s, ⟨0, 0, []⟩)

/-- Run a handler action against a healthy modelled engine: an immediate
response leaves the table untouched; a query is executed and its success
result fed to the callback. -/
def runAction (s : DBState) (a : HandlerAction) : DBState × Response :=
  match a with
  | .respond r => (s, r)
  | .query stmt k =>
      let p := mysqlExec s stmt
      (p.1, k (.qok p.2))

/-- The empty table with the first AUTO_INCREMENT value. -/
def emptyDB : DBState := ⟨[], 1⟩

/-!
Connection-lifecycle manager (connectWithRetry, server.js lines 33-58).
-/

/-- What one connection attempt does next (the connect callback, lines
41-49): on error schedule connectWithRetry again after a fixed 5000 ms;
on success ensure the table exists. -/
inductive ConnectOutcome where
  | retryAfter (delayMs : Nat)
  | connectedEnsureTable
deriving Repr, DecidableEq

/-- The connect callback of connectWithRetry, as a function of whether
the attempt succeeded.  The retry delay is the literal 5000 ms,
independent of how many attempts have failed. -/
def connectAttempt (ok : Bool) : ConnectOutcome :=
  if ok then .connectedEnsureTable else .retryAfter 5000

/-- Whether the n-th connection attempt (0-indexed) is made, given which
attempts succeed: attempt 0 is made at startup, and attempt n+1 is made
exactly when attempt n was made and failed (the scheduled retry). -/
def attemptMade (ok : Nat → Bool) : Nat → Bool
  | 0 => true
  | n + 1 => attemptMade ok n && !ok n

/-- Reaction of the asynchronous error listener (db.on error, lines
52-57). -/
inductive ErrorReaction where
  | reconnect
  | logOnly
deriving Repr, DecidableEq

/-- The db.on error listener: a PROTOCOL_CONNECTION_LOST code re-invokes
connectWithRetry (the same function as at startup); any other code is
only logged. -/
def onDbError (code : String) : ErrorReaction :=
  if code = "PROTOCOL_CONNECTION_LOST" then .reconnect else .logOnly

/-! Helper lemmas about the engine model. -/

theorem mysqlExec_insert_stmt (s : DBState) (nm em : String) :
    mysqlExec s ⟨addUserSql, [nm, em]⟩ = applyInsert s nm em := rfl

theorem mysqlExec_select_stmt (s : DBState) :
    mysqlExec s ⟨selectUsersSql, []⟩ = (s, ⟨0, 0, s.rows⟩) := rfl

theorem mysqlExec_update_stmt (s : DBState) (nm em idStr : String) :
    mysqlExec s ⟨updateUserSql, [nm, em, idStr]⟩ = applyUpdate s nm em idStr := rfl

theorem mysqlExec_delete_stmt (s : DBState) (idStr : String) :
    mysqlExec s ⟨deleteUserSql, [idStr]⟩ = applyDelete s idStr := rfl

theorem runAction_getUsers (s : DBState) :
    runAction s getUsers = (s, ⟨200, .usersArr s.rows⟩) := rfl

theorem update_rows_no_match (rows : List User) (nm em idStr : String)
    (h : ∀ u ∈ rows, matchesId idStr u = false) :
    rows.map (fun u => if matchesId idStr u then ⟨u.id, nm, em⟩ else u) = rows := by
  induction rows with
  | nil => rfl
  | cons a t ih =>
      have ha := h a (List.mem_cons_self a t)
      have ht := ih fun u hu => h u (List.mem_cons_of_mem a hu)
      simp [ha, ht]

theorem filter_matches_nil (rows : List User) (idStr : String)
    (h : ∀ u ∈ rows, matchesId idStr u = false) :
    rows.filter (matchesId idStr) = [] := by
  induction rows with
  | nil => rfl
  | cons a t ih =>
      have ha := h a (List.mem_cons_self a t)
      have ht := ih fun u hu => h u (List.mem_cons_of_mem a hu)
      simp [List.filter, ha, ht]

theorem filter_matches_pos (rows : List User) (idStr : String)
    (h : ∃ u ∈ rows, matchesId idStr u = true) :
    (rows.filter (matchesId idStr)).length ≠ 0 := by
  obtain ⟨u, hu, hm⟩ := h
  have : u ∈ rows.filter (matchesId idStr) := List.mem_filter.mpr ⟨hu, hm⟩
  have hne : rows.filter (matchesId idStr) ≠ [] := List.ne_nil_of_mem this
  simpa [List.length_eq_zero] using hne

/-- C1: for every request body with non-empty name and non-empty email,
when the driver reports success the add-user handler answers 200 with
message "User added successfully!" and userId equal to the driver insert
id; and in the concrete scenario of two successive inserts into the empty
table the returned ids are 1 then 2, and a subsequent list-users returns
the two records in insertion order. -/
theorem addUser_ok_and_two_insert_scenario
    (body : ReqBody) (hn : falsy body.name = false) (he : falsy body.email = false)
    (r : QueryResult) :
    actionResponse (addUser body) (.qok r)
        = ⟨200, .messageWithId "User added successfully!" r.insertId⟩
    ∧ runAction emptyDB (addUser ⟨some "Aryan", some "aryan@example.com"⟩)
        = (⟨[⟨1, "Aryan", "aryan@example.com"⟩], 2⟩,
           ⟨200, .messageWithId "User added successfully!" 1⟩)
    ∧ runAction ⟨[⟨1, "Aryan", "aryan@example.com"⟩], 2⟩
          (addUser ⟨some "Priya", some "priya@example.com"⟩)
        = (⟨[⟨1, "Aryan", "aryan@example.com"⟩, ⟨2, "Priya", "priya@example.com"⟩], 3⟩,
           ⟨200, .messageWithId "User added successfully!" 2⟩)
    ∧ runAction ⟨[⟨1, "Aryan", "aryan@example.com"⟩, ⟨2, "Priya", "priya@example.com"⟩], 3⟩
          getUsers
        = (⟨[⟨1, "Aryan", "aryan@example.com"⟩, ⟨2, "Priya", "priya@example.com"⟩], 3⟩,
           ⟨200, .usersArr
             [⟨1, "Aryan", "aryan@example.com"⟩, ⟨2, "Priya", "priya@example.com"⟩]⟩) := by
  refine ⟨?_, by decide, by decide, by decide⟩
  simp [addUser, hn, he, actionResponse]

/-- Witness for C1: the universal part evaluated at a concrete valid body
and a concrete driver success result. -/
theorem addUser_ok_witness :
    actionResponse (addUser ⟨some "A", some "a@x"⟩) (.qok ⟨7, 1, []⟩)
      = ⟨200, .messageWithId "User added successfully!" 7⟩ :=
  (addUser_ok_and_two_insert_scenario ⟨some "A", some "a@x"⟩ (by decide) (by decide)
    ⟨7, 1, []⟩).1

/-- C2: for every add-user or update-user request whose body is missing
name or email (or has them empty), the handler answers 400 with the error
message, issues no SQL statement, and the table is unchanged. -/
theorem missing_field_rejected_before_sql
    (body : ReqBody) (h : (falsy body.name || falsy body.email) = true)
    (id : String) (s : DBState) :
    addUser body = .respond ⟨400, .errorMsg "Name and email are required"⟩
    ∧ updateUser id body = .respond ⟨400, .errorMsg "Name and email are required"⟩
    ∧ issuedSql (addUser body) = none
    ∧ issuedSql (updateUser id body) = none
    ∧ runAction s (addUser body) = (s, ⟨400, .errorMsg "Name and email are required"⟩)
    ∧ runAction s (updateUser id body)
        = (s, ⟨400, .errorMsg "Name and email are required"⟩) := by
  refine ⟨?_, ?_, ?_, ?_, ?_, ?_⟩ <;>
    simp [addUser, updateUser, h, issuedSql, runAction]

/-- Witness for C2: a body with an empty name is rejected with 400 and no
SQL reaches the engine. -/
theorem missing_field_rejected_witness :
    issuedSql (addUser ⟨some "", some "a@x"⟩) = none :=
  (missing_field_rejected_before_sql ⟨some "", some "a@x"⟩ (by decide) "1" emptyDB).2.2.1

/-- C3: for update and delete, a driver success with affected-row count
zero maps to 404, a nonzero count maps to 200 with the confirmation
message; against the engine model, an id matching no persisted record
leaves the table unchanged and yields 404 (also on a second delete of an
already-deleted id), and a successful delete removes exactly the rows
with that id. -/
theorem zero_affected_rows_is_404
    (id : String) (body : ReqBody)
    (hn : falsy body.name = false) (he : falsy body.email = false)
    (r : QueryResult) (s : DBState) :
    (r.affectedRows = 0 →
        actionResponse (updateUser id body) (.qok r) = ⟨404, .errorMsg "User not found"⟩
      ∧ actionResponse (deleteUser id) (.qok r) = ⟨404, .errorMsg "User not found"⟩)
    ∧ (r.affectedRows ≠ 0 →
        actionResponse (updateUser id body) (.qok r)
          = ⟨200, .messageOnly "User updated successfully!"⟩
      ∧ actionResponse (deleteUser id) (.qok r)
          = ⟨200, .messageOnly "User deleted successfully!"⟩)
    ∧ ((∀ u ∈ s.rows, matchesId id u = false) →
        runAction s (updateUser id body) = (s, ⟨404, .errorMsg "User not found"⟩)
      ∧ runAction s (deleteUser id) = (s, ⟨404, .errorMsg "User not found"⟩))
    ∧ ((∃ u ∈ s.rows, matchesId id u = true) →
        (runAction s (deleteUser id)).2 = ⟨200, .messageOnly "User deleted successfully!"⟩)
    ∧ (runAction s (deleteUser id)).1.rows = s.rows.filter (fun u => !matchesId id u)
    ∧ (runAction s (deleteUser id)).1.nextId = s.nextId := by
  refine ⟨?_, ?_, ?_, ?_, ?_, ?_⟩
  · intro h0
    constructor <;> simp [updateUser, deleteUser, hn, he, actionResponse, h0]
  · intro hpos
    constructor <;> simp [updateUser, deleteUser, hn, he, actionResponse, hpos]
  · intro hnone
    have hf := filter_matches_nil s.rows id hnone
    have hm := update_rows_no_match s.rows (getStr body.name) (getStr body.email) id hnone
    have hfkeep : s.rows.filter (fun u => !matchesId id u) = s.rows := by
      apply List.filter_eq_self.mpr
      intro u hu
      simp [hnone u hu]
    constructor
    · simp [runAction, updateUser, hn, he, mysqlExec_update_stmt, applyUpdate, hf, hm]
    · simp [runAction, deleteUser, mysqlExec_delete_stmt, applyDelete, hf, hfkeep]
  · intro hex
    have := filter_matches_pos s.rows id hex
    simp [runAction, deleteUser, mysqlExec_delete_stmt, applyDelete, this]
  · simp [runAction, deleteUser, mysqlExec_delete_stmt, applyDelete]
  · simp [runAction, deleteUser, mysqlExec_delete_stmt, applyDelete]

/-- Witness for C3: deleting id 2 from a one-row table with id 1 leaves
the table unchanged and answers 404. -/
theorem zero_affected_rows_witness :
    runAction ⟨[⟨1, "A", "a@x"⟩], 2⟩ (deleteUser "2")
      = (⟨[⟨1, "A", "a@x"⟩], 2⟩, ⟨404, .errorMsg "User not found"⟩) :=
  ((zero_affected_rows_is_404 "2" ⟨some "A", some "a@x"⟩ (by decide) (by decide)
      ⟨0, 0, []⟩ ⟨[⟨1, "A", "a@x"⟩], 2⟩).2.2.1 (by decide)).2

/-- C4: a successful update rewrites only the name and email of the rows
matching the path id: the resulting table is the pointwise rewrite of the
old one, ids and the auto-increment counter are unchanged, every
non-matching row survives unchanged, every resulting row descends from an
old row of the same id, an existing id yields 200, and a subsequent
list-users returns exactly the rewritten rows. -/
theorem update_frame_effect
    (s : DBState) (id : String) (body : ReqBody)
    (hn : falsy body.name = false) (he : falsy body.email = false) :
    (runAction s (updateUser id body)).1.rows
        = s.rows.map (fun u =>
            if matchesId id u then ⟨u.id, getStr body.name, getStr body.email⟩ else u)
    ∧ (runAction s (updateUser id body)).1.nextId = s.nextId
    ∧ (∀ u ∈ s.rows, matchesId id u = false → u ∈ (runAction s (updateUser id body)).1.rows)
    ∧ (∀ v ∈ (runAction s (updateUser id body)).1.rows, ∃ u ∈ s.rows,
          v.id = u.id
        ∧ (matchesId id u = false → v = u)
        ∧ (matchesId id u = true → v = ⟨u.id, getStr body.name, getStr body.email⟩))
    ∧ ((∃ u ∈ s.rows, matchesId id u = true) →
        (runAction s (updateUser id body)).2
          = ⟨200, .messageOnly "User updated successfully!"⟩)
    ∧ runAction (runAction s (updateUser id body)).1 getUsers
        = ((runAction s (updateUser id body)).1,
           ⟨200, .usersArr (runAction s (updateUser id body)).1.rows⟩) := by
  have hrows : (runAction s (updateUser id body)).1.rows
      = s.rows.map (fun u =>
          if matchesId id u then ⟨u.id, getStr body.name, getStr body.email⟩ else u) := by
    simp [runAction, updateUser, hn, he, mysqlExec_update_stmt, applyUpdate]
  refine ⟨hrows, ?_, ?_, ?_, ?_, runAction_getUsers _⟩
  · simp [runAction, updateUser, hn, he, mysqlExec_update_stmt, applyUpdate]
  · intro u hu hmf
    rw [hrows]
    refine List.mem_map.mpr ⟨u, hu, ?_⟩
    simp [hmf]
  · intro v hv
    rw [hrows] at hv
    obtain ⟨u, hu, huv⟩ := List.mem_map.mp hv
    refine ⟨u, hu, ?_, ?_, ?_⟩
    · cases hm : matchesId id u <;> simp [hm] at huv <;> simp [← huv]
    · intro hmf
      simpa [hmf] using huv.symm
    · intro hmt
      simpa [hmt] using huv.symm
  · intro hex
    have := filter_matches_pos s.rows id hex
    simp [runAction, updateUser, hn, he, mysqlExec_update_stmt, applyUpdate, this]

/-- Witness for C4: updating id 1 in a two-row table rewrites only the
first row. -/
theorem update_frame_witness :
    (runAction ⟨[⟨1, "A", "a@x"⟩, ⟨2, "B", "b@x"⟩], 3⟩
        (updateUser "1" ⟨some "C", some "c@x"⟩)).1.rows
      = ([⟨1, "A", "a@x"⟩, ⟨2, "B", "b@x"⟩] : List User).map (fun u =>
          if matchesId "1" u then
            ⟨u.id, getStr (some "C"), getStr (some "c@x")⟩ else u) :=
  (update_frame_effect ⟨[⟨1, "A", "a@x"⟩, ⟨2, "B", "b@x"⟩], 3⟩ "1"
    ⟨some "C", some "c@x"⟩ (by decide) (by decide)).1

/-- C5: the health handler answers 200 with its status string in every
connection-lifecycle state, issues no SQL, and leaves the table
untouched. -/
theorem health_unconditional_200 (st : ConnState) (s : DBState) :
    healthHandler st = .respond ⟨200, .statusMsg "Backend is running!"⟩
    ∧ issuedSql (healthHandler st) = none
    ∧ runAction s (healthHandler st) = (s, ⟨200, .statusMsg "Backend is running!"⟩) :=
  ⟨rfl, rfl, rfl⟩

/-- C6: a failed connection attempt schedules the next attempt after the
fixed 5000 ms delay, independent of the number of previous failures, and
after any number n of consecutive failures the (n+1)-th attempt (index n)
is still made: there is no maximum retry count. -/
theorem retry_fixed_delay_forever
    (ok : Nat → Bool) (n : Nat) (hfail : ∀ i < n, ok i = false) :
    attemptMade ok n = true ∧ connectAttempt false = .retryAfter 5000 := by
  constructor
  · induction n with
    | zero => rfl
    | succ m ih =>
        have h1 : attemptMade ok m = true :=
          ih fun i hi => hfail i (Nat.lt_succ_of_lt hi)
        simp [attemptMade, h1, hfail m (Nat.lt_succ_self m)]
  · rfl

/-- Witness for C6: after four straight failures the fifth attempt is
made, each with a 5000 ms retry delay. -/
theorem retry_forever_witness :
    attemptMade (fun _ => false) 4 = true ∧ connectAttempt false = .retryAfter 5000 :=
  retry_fixed_delay_forever (fun _ => false) 4 (fun _ _ => rfl)

/-- C7: the asynchronous error listener re-invokes connectWithRetry (the
startup logic) exactly on the PROTOCOL_CONNECTION_LOST error class, and
only logs every other error code. -/
theorem conn_lost_reenters_retry (code : String)
    (h : code ≠ "PROTOCOL_CONNECTION_LOST") :
    onDbError "PROTOCOL_CONNECTION_LOST" = .reconnect
    ∧ onDbError code = .logOnly :=
  ⟨rfl, by simp [onDbError, h]⟩

/-- Witness for C7: a refused-connection error code is only logged while
the lost-connection code triggers a reconnect. -/
theorem conn_lost_witness :
    onDbError "PROTOCOL_CONNECTION_LOST" = .reconnect
    ∧ onDbError "ECONNREFUSED" = .logOnly :=
  conn_lost_reenters_retry "ECONNREFUSED" (by decide)

/-- C8: every handler sends a statement text that is one of the fixed
constants, independent of the request body and path parameters; all
user-supplied values travel exclusively in the positional parameter list,
never concatenated into the text. -/
theorem sql_text_constant_params_bound
    (body : ReqBody) (hn : falsy body.name = false) (he : falsy body.email = false)
    (id : String) :
    issuedSql (addUser body)
        = some ⟨addUserSql, [getStr body.name, getStr body.email]⟩
    ∧ issuedSql (updateUser id body)
        = some ⟨updateUserSql, [getStr body.name, getStr body.email, id]⟩
    ∧ issuedSql (deleteUser id) = some ⟨deleteUserSql, [id]⟩
    ∧ issuedSql getUsers = some ⟨selectUsersSql, []⟩
    ∧ issuedSql createTable = some ⟨createTableSql, []⟩ := by
  refine ⟨?_, ?_, rfl, rfl, rfl⟩ <;> simp [addUser, updateUser, hn, he, issuedSql]

/-- Witness for C8: a body containing SQL metacharacters still yields the
constant statement text with the values only in the parameter list. -/
theorem sql_text_constant_witness :
    issuedSql (addUser ⟨some "Robert, DROP TABLE users", some "a@x"⟩)
      = some ⟨addUserSql, ["Robert, DROP TABLE users", "a@x"]⟩ :=
  (sql_text_constant_params_bound ⟨some "Robert, DROP TABLE users", some "a@x"⟩
    (by decide) (by decide) "1").1

/-- C9: every driver-reported failure during a request is converted at
the handler boundary into a 500 response whose error field is the raw
driver message, for all five database-backed handlers; the conversion is
a total function of the outcome, so no retry happens and no exception
escapes. -/
theorem driver_error_maps_to_500
    (m : String) (body : ReqBody)
    (hn : falsy body.name = false) (he : falsy body.email = false) (id : String) :
    actionResponse (addUser body) (.qerr m) = ⟨500, .errorMsg m⟩
    ∧ actionResponse getUsers (.qerr m) = ⟨500, .errorMsg m⟩
    ∧ actionResponse (updateUser id body) (.qerr m) = ⟨500, .errorMsg m⟩
    ∧ actionResponse (deleteUser id) (.qerr m) = ⟨500, .errorMsg m⟩
    ∧ actionResponse createTable (.qerr m) = ⟨500, .errorMsg m⟩ := by
  refine ⟨?_, rfl, ?_, rfl, rfl⟩ <;>
    simp [addUser, updateUser, hn, he, actionResponse]

/-- Witness for C9: a concrete driver message surfaces verbatim as the
500 error body of the add-user handler. -/
theorem driver_error_witness :
    actionResponse (addUser ⟨some "A", some "a@x"⟩) (.qerr "ECONNREFUSED")
      = ⟨500, .errorMsg "ECONNREFUSED"⟩ :=
  (driver_error_maps_to_500 "ECONNREFUSED" ⟨some "A", some "a@x"⟩
    (by decide) (by decide) "1").1

/-- C10: the update and delete handlers never validate the path id: for
every id string, including non-numeric ones, the raw string is bound as
the final positional parameter, and for every driver outcome the response
status is one of 200, 404 and 500 (given a valid body for update). -/
theorem raw_id_bound_response_total
    (id : String) (body : ReqBody)
    (hn : falsy body.name = false) (he : falsy body.email = false)
    (o : QueryOutcome) :
    issuedSql (updateUser id body)
        = some ⟨updateUserSql, [getStr body.name, getStr body.email, id]⟩
    ∧ issuedSql (deleteUser id) = some ⟨deleteUserSql, [id]⟩
    ∧ ((actionResponse (updateUser id body) o).status = 200
        ∨ (actionResponse (updateUser id body) o).status = 404
        ∨ (actionResponse (updateUser id body) o).status = 500)
    ∧ ((actionResponse (deleteUser id) o).status = 200
        ∨ (actionResponse (deleteUser id) o).status = 404
        ∨ (actionResponse (deleteUser id) o).status = 500) := by
  refine ⟨by simp [updateUser, hn, he, issuedSql], rfl, ?_, ?_⟩
  · cases o with
    | qerr m => simp [updateUser, hn, he, actionResponse]
    | qok r =>
        by_cases hr : r.affectedRows = 0 <;>
          simp [updateUser, hn, he, actionResponse, hr]
  · cases o with
    | qerr m => simp [deleteUser, actionResponse]
    | qok r =>
        by_cases hr : r.affectedRows = 0 <;>
          simp [deleteUser, actionResponse, hr]

/-- Witness for C10: a non-numeric path id is bound verbatim and the
delete response on a zero-affected-rows success is 404. -/
theorem raw_id_bound_witness :
    issuedSql (deleteUser "abc") = some ⟨deleteUserSql, ["abc"]⟩
    ∧ ((actionResponse (deleteUser "abc") (.qok ⟨0, 0, []⟩)).status = 200
        ∨ (actionResponse (deleteUser "abc") (.qok ⟨0, 0, []⟩)).status = 404
        ∨ (actionResponse (deleteUser "abc") (.qok ⟨0, 0, []⟩)).status = 500) :=
  ⟨(raw_id_bound_response_total "abc" ⟨some "A", some "a@x"⟩
      (by decide) (by decide) (.qok ⟨0, 0, []⟩)).2.1,
   (raw_id_bound_response_total "abc" ⟨some "A", some "a@x"⟩
      (by decide) (by decide) (.qok ⟨0, 0, []⟩)).2.2.2⟩

end Server
